import Mathlib

/-!
Shallow embedding of the two scripts of the `travel` repository:
`src/gemini_chat.py` (an interactive chat loop over an external
generative-AI client library) and `src/list_models.py` (a model lister).

The external library (`genai`) is opaque: its `generate_content` call is
modelled as an oracle parameter `gen : GenRequest → Except String String`
(`Except.error e` models a raised exception whose `str` is `e`, covering
both the request itself and the `response.text` access, which sit in the
same `try` block), and its `list_models()` call as an input list of model
descriptors. Standard input is a list of lines; exhausting it models the
exception `input()` raises when reading fails (e.g. end-of-file).
-/

namespace Travel

/-- Python's `str.lower()` restricted to ASCII, which is all the scripts
compare against (`'quit'`): lowercase every character. -/
def pyLower (s : String) : String := String.mk (s.data.map Char.toLower)

/-- Python's `str.strip()` with no argument: remove leading and trailing
whitespace. (Used only to state the spec's "trimmed" reading of the quit
test; the code never trims.) -/
def pyStrip (s : String) : String :=
  String.mk (((s.data.dropWhile Char.isWhitespace).reverse.dropWhile
    Char.isWhitespace).reverse)

/-- Python truthiness of `os.getenv` results: `None` and `""` are falsy,
as tested by `if not GOOGLE_API_KEY`. -/
def pyTruthy (o : Option String) : Bool :=
  match o with
  | none => false
  | some s => !(s == "")

/-- The message of the `ValueError` both scripts raise on a missing key. -/
def keyError : String := "Please set the GOOGLE_API_KEY environment variable"

/-- `"-" * 50`, the visual separator both scripts print. -/
def sep : String := String.mk (List.replicate 50 '-')

/-- The `genai.types.GenerationConfig(...)` keyword arguments built in
`chat_with_gemini` (`src/gemini_chat.py` lines 23-28). Decimal literals
are embedded as rationals. -/
structure GenerationConfig where
  temperature : ℚ
  top_p : ℚ
  top_k : ℕ
  max_output_tokens : ℕ
  deriving DecidableEq, Repr

/-- One entry of the `safety_settings` list: a category / threshold pair
of strings, exactly as in the source dictionaries. -/
structure SafetySetting where
  category : String
  threshold : String
  deriving DecidableEq, Repr

/-- Everything `chat_with_gemini` passes downstream for one generation:
the model name given to `genai.GenerativeModel`, the prompt, the
generation configuration and the safety settings of `generate_content`. -/
structure GenRequest where
  model : String
  prompt : String
  generation_config : GenerationConfig
  safety_settings : List SafetySetting
  deriving DecidableEq, Repr

/-- The literal configuration of `src/gemini_chat.py` lines 24-27. -/
def fixedGenerationConfig : GenerationConfig :=
  { temperature := 0.7, top_p := 0.95, top_k := 40, max_output_tokens := 2048 }

/-- The literal safety settings of `src/gemini_chat.py` lines 29-46. -/
def fixedSafetySettings : List SafetySetting :=
  [ { category := "HARM_CATEGORY_HARASSMENT", threshold := "BLOCK_MEDIUM_AND_ABOVE" },
    { category := "HARM_CATEGORY_HATE_SPEECH", threshold := "BLOCK_MEDIUM_AND_ABOVE" },
    { category := "HARM_CATEGORY_SEXUALLY_EXPLICIT", threshold := "BLOCK_MEDIUM_AND_ABOVE" },
    { category := "HARM_CATEGORY_DANGEROUS_CONTENT", threshold := "BLOCK_MEDIUM_AND_ABOVE" } ]

/-- The model identifier of `src/gemini_chat.py` line 18. -/
def geminiModelName : String := "gemini-2.5-pro-preview-03-25"

/-- The downstream request `chat_with_gemini` builds for a prompt: a fresh
model handle with the fixed identifier, plus the fixed configuration and
safety settings, rebuilt on every call (lines 18-47 of the source). -/
def geminiRequest (prompt : String) : GenRequest :=
  { model := geminiModelName
    prompt := prompt
    generation_config := fixedGenerationConfig
    safety_settings := fixedSafetySettings }

/-- `chat_with_gemini(prompt)` of `src/gemini_chat.py`: issue the request;
return `response.text` on success, and on any exception `e` the string
`f"Error: {str(e)}"` instead of propagating. -/
def chat_with_gemini (gen : GenRequest → Except String String) (prompt : String) : String :=
  match gen (geminiRequest prompt) with
  | Except.ok text => text
  | Except.error e => "Error: " ++ e

/-- Observable steps of a chat-script run: a printed string or a
downstream generation call. -/
inductive Event where
  | out : String → Event
  | call : GenRequest → Event
  deriving DecidableEq, Repr

/-- How the `while True` loop of `main` ends: the `break` after `quit`,
or an exception propagating out of `input()` when stdin is exhausted. -/
inductive LoopExit where
  | quit : LoopExit
  | stdinError : LoopExit
  deriving DecidableEq, Repr

/-- The prompt `input("\nYou: ")` writes each iteration. -/
def promptString : String := "\nYou: "

/-- The farewell printed before `break`. -/
def farewell : String := "\nGoodbye!"

/-- The banner printed at startup of `main`. -/
def welcome : String := "Welcome to Gemini Chat! (Type 'quit' to exit)"

/-- The loop's quit test, exactly as written:
`user_input.lower() == 'quit'` — lowercase, no trimming. -/
def isQuit (line : String) : Bool := pyLower line == "quit"

/-- The quit test as the spec words it: the trimmed, case-insensitive
input equals `"quit"`. Kept separate from `isQuit` (the code's test) to
compare the two. -/
def specQuit (line : String) : Bool := pyLower (pyStrip line) == "quit"

/-- The events of one non-quit iteration of the loop (`src/gemini_chat.py`
lines 57-64): the input prompt, the downstream call, the printed response
line and the separator. -/
def iterEvents (gen : GenRequest → Except String String) (line : String) : List Event :=
  [Event.out promptString, Event.call (geminiRequest line),
   Event.out ("\nGemini: " ++ chat_with_gemini gen line), Event.out sep]

/-- The `while True` loop of `main` over the remaining stdin lines.
On an empty stdin, `input()` writes its prompt and raises; on a quit line
the farewell is printed and the loop breaks; otherwise one iteration's
events are emitted and the loop recurses. -/
def mainLoop (gen : GenRequest → Except String String) :
    List String → List Event × LoopExit
  | [] => ([Event.out promptString], LoopExit.stdinError)
  | line :: rest =>
    if isQuit line then
      ([Event.out promptString, Event.out farewell], LoopExit.quit)
    else
      (iterEvents gen line ++ (mainLoop gen rest).1, (mainLoop gen rest).2)

/-- `main()` of `src/gemini_chat.py`: the welcome banner, a separator,
then the loop. -/
def main (gen : GenRequest → Except String String) (stdin : List String) :
    List Event × LoopExit :=
  (Event.out welcome :: Event.out sep :: (mainLoop gen stdin).1, (mainLoop gen stdin).2)

/-- Lines 5-10 of both scripts: read `GOOGLE_API_KEY` from the
environment; if it is absent or falsy, raise the `ValueError` before
`genai.configure` runs; otherwise configuration succeeds with the key. -/
def startup (env : Option String) : Except String String :=
  match env with
  | none => Except.error keyError
  | some k => if k = "" then Except.error keyError else Except.ok k

/-- Running `src/gemini_chat.py` as a script: startup first; only on
success does `main` run (so a startup failure produces no events and no
downstream call). -/
def runChatScript (env : Option String) (gen : GenRequest → Except String String)
    (stdin : List String) : Except String (List Event × LoopExit) :=
  match startup env with
  | Except.error e => Except.error e
  | Except.ok _ => Except.ok (main gen stdin)

/-- A model descriptor as `src/list_models.py` reads it: `model.name` and
`model.display_name`, opaque strings from the service. -/
structure ModelDescriptor where
  name : String
  display_name : String
  deriving DecidableEq, Repr

/-- The `for model in genai.list_models()` loop (lines 15-18): per
descriptor, its name line, its display-name line and a separator. -/
def printModels : List ModelDescriptor → List String
  | [] => []
  | m :: ms =>
    ("Name: " ++ m.name) :: ("Display Name: " ++ m.display_name) :: sep :: printModels ms

/-- The whole output of `src/list_models.py` after startup: header,
separator, then the loop's lines. -/
def listModelsMain (models : List ModelDescriptor) : List String :=
  "Available Models:" :: sep :: printModels models

/-- Running `src/list_models.py` as a script: startup first, listing only
on success. -/
def runListModels (env : Option String) (models : List ModelDescriptor) :
    Except String (List String) :=
  match startup env with
  | Except.error e => Except.error e
  | Except.ok _ => Except.ok (listModelsMain models)

/-- The downstream requests among a list of events, in order. -/
def callsOf (evs : List Event) : List GenRequest :=
  evs.filterMap fun e =>
    match e with
    | Event.call r => some r
    | Event.out _ => none

/-- The stdin lines the loop forwards downstream: the prefix before the
first quit line. -/
def processedLines (stdin : List String) : List String :=
  stdin.takeWhile fun l => !(isQuit l)

/-- How many downstream calls a list of events contains. -/
def numCalls (evs : List Event) : ℕ := (callsOf evs).length

/-- An oracle that always succeeds, for concrete runs. -/
def genOk : GenRequest → Except String String := fun _ => Except.ok "ok"

/-- An oracle that always raises, for concrete runs. -/
def genErr : GenRequest → Except String String := fun _ => Except.error "boom"

/-! ### Helper lemmas -/

theorem data_append (s t : String) : (s ++ t).data = s.data ++ t.data := by
  cases s; cases t; rfl

theorem gemini_line_ne_farewell (x : String) : "\nGemini: " ++ x ≠ farewell := by
  intro h
  have hd : "\nGemini: ".data ++ x.data = farewell.data := by
    rw [← data_append, h]
  have h1 : "\nGemini: ".data = ['\n', 'G', 'e', 'm', 'i', 'n', 'i', ':', ' '] := rfl
  have h2 : farewell.data = ['\n', 'G', 'o', 'o', 'd', 'b', 'y', 'e', '!'] := rfl
  rw [h1, h2] at hd
  simp at hd

theorem callsOf_append (a b : List Event) :
    callsOf (a ++ b) = callsOf a ++ callsOf b := by
  simp [callsOf, List.filterMap_append]

/-- The downstream requests of a whole loop run are exactly the lines
before the first quit line, each sent through `geminiRequest`. -/
theorem mainLoop_calls (gen : GenRequest → Except String String) (stdin : List String) :
    callsOf (mainLoop gen stdin).1 = (processedLines stdin).map geminiRequest := by
  induction stdin with
  | nil => simp [mainLoop, callsOf, processedLines]
  | cons line rest ih =>
    by_cases h : isQuit line
    · simp [mainLoop, h, callsOf, processedLines, List.takeWhile_cons]
    · have hml : (mainLoop gen (line :: rest)).1 = iterEvents gen line ++ (mainLoop gen rest).1 := by
        simp [mainLoop, h]
      rw [hml, callsOf_append, ih]
      simp [processedLines, List.takeWhile_cons, h, iterEvents, callsOf]

theorem mem_callsOf (r : GenRequest) (evs : List Event) :
    r ∈ callsOf evs ↔ Event.call r ∈ evs := by
  induction evs with
  | nil => simp [callsOf]
  | cons e rest ih =>
    cases e with
    | out s => simp [callsOf, List.filterMap_cons] at ih ⊢; exact ih
    | call q => simp [callsOf, List.filterMap_cons] at ih ⊢; rw [ih]

/-- Every downstream call of a chat run is `geminiRequest` applied to one
of the processed input lines. -/
theorem call_is_geminiRequest (gen : GenRequest → Except String String)
    (stdin : List String) (r : GenRequest) (h : Event.call r ∈ (main gen stdin).1) :
    ∃ line ∈ processedLines stdin, r = geminiRequest line := by
  have hm : Event.call r ∈ (mainLoop gen stdin).1 := by
    simpa [main] using h
  have hc : r ∈ callsOf (mainLoop gen stdin).1 := (mem_callsOf r _).2 hm
  rw [mainLoop_calls] at hc
  rcases List.mem_map.1 hc with ⟨line, hline, hr⟩
  exact ⟨line, hline, hr.symm⟩

/-! ### Claims -/

/-- Claim C1, counterexample: the input `" quit"` is `"quit"` after
trimming and lowercasing, as the claim's quit test reads, yet the loop
does not terminate with the farewell there: it issues a downstream
generation call for that very input, because the code lowercases but
never trims (`user_input.lower() == 'quit'`). -/
theorem C1_counterexample :
    specQuit " quit" = true ∧
    (mainLoop genOk [" quit"]).2 = LoopExit.stdinError ∧
    Event.out farewell ∉ (mainLoop genOk [" quit"]).1 ∧
    Event.call (geminiRequest " quit") ∈ (mainLoop genOk [" quit"]).1 := by
  refine ⟨by decide, by decide, by decide, ?_⟩
  have h : isQuit " quit" = false := by decide
  simp [mainLoop, h, iterEvents]

/-- Claim C1 as amended: for every input line whose lowercased form —
with no trimming — equals `"quit"`, the loop terminates with exit
status `quit`, prints the farewell, and issues no downstream generation
call for that input (nor any later one). -/
theorem C1_quit_exact (gen : GenRequest → Except String String) (line : String)
    (rest : List String) (h : isQuit line = true) :
    (mainLoop gen (line :: rest)).2 = LoopExit.quit ∧
    Event.out farewell ∈ (mainLoop gen (line :: rest)).1 ∧
    callsOf (mainLoop gen (line :: rest)).1 = [] := by
  simp [mainLoop, h, callsOf]

/-- Claim C1 witness: the amended statement at the concrete input
`"Quit"`. -/
theorem C1_quit_exact_witness :
    isQuit "Quit" = true ∧
    ((mainLoop genOk ["Quit"]).2 = LoopExit.quit ∧
     Event.out farewell ∈ (mainLoop genOk ["Quit"]).1 ∧
     callsOf (mainLoop genOk ["Quit"]).1 = []) :=
  ⟨by decide, C1_quit_exact genOk "Quit" [] (by decide)⟩

/-- Claim C2: whenever the downstream call raises (the oracle returns
`Except.error e`), `chat_with_gemini` returns the string
`"Error: " ++ e` instead of propagating; the loop iteration still
produces its normal events, and the loop continues afterwards exactly as
it would on the remaining input. -/
theorem C2_error_string (gen : GenRequest → Except String String) (prompt e : String)
    (rest : List String) (h1 : gen (geminiRequest prompt) = Except.error e)
    (h2 : isQuit prompt = false) :
    chat_with_gemini gen prompt = "Error: " ++ e ∧
    (mainLoop gen (prompt :: rest)).1 = iterEvents gen prompt ++ (mainLoop gen rest).1 ∧
    (mainLoop gen (prompt :: rest)).2 = (mainLoop gen rest).2 := by
  refine ⟨?_, ?_, ?_⟩
  · simp [chat_with_gemini, h1]
  · simp [mainLoop, h2]
  · simp [mainLoop, h2]

/-- Claim C2 witness: the always-raising oracle at the concrete prompt
`"hi"`. -/
theorem C2_witness :
    genErr (geminiRequest "hi") = Except.error "boom" ∧ isQuit "hi" = false ∧
    (chat_with_gemini genErr "hi" = "Error: " ++ "boom" ∧
     (mainLoop genErr ["hi"]).1 = iterEvents genErr "hi" ++ (mainLoop genErr []).1 ∧
     (mainLoop genErr ["hi"]).2 = (mainLoop genErr []).2) :=
  ⟨rfl, by decide, C2_error_string genErr "hi" "boom" [] rfl (by decide)⟩

/-- Claim C3: every downstream generation call of any chat run carries
the fixed parameter set (temperature 0.7, top_p 0.95, top_k 40,
max_output_tokens 2048) and the fixed safety settings (block
medium-and-above for harassment, hate speech, sexually explicit and
dangerous content), whatever the prompt and the oracle. -/
theorem C3_fixed_parameters (gen : GenRequest → Except String String)
    (stdin : List String) (r : GenRequest) (h : Event.call r ∈ (main gen stdin).1) :
    r.generation_config.temperature = 0.7 ∧
    r.generation_config.top_p = 0.95 ∧
    r.generation_config.top_k = 40 ∧
    r.generation_config.max_output_tokens = 2048 ∧
    r.safety_settings = fixedSafetySettings := by
  rcases call_is_geminiRequest gen stdin r h with ⟨line, _, hr⟩
  subst hr
  exact ⟨rfl, rfl, rfl, rfl, rfl⟩

/-- Claim C3 witness: the call issued for the concrete input `"hi"`. -/
theorem C3_witness :
    Event.call (geminiRequest "hi") ∈ (main genOk ["hi"]).1 ∧
    ((geminiRequest "hi").generation_config.temperature = 0.7 ∧
     (geminiRequest "hi").generation_config.top_p = 0.95 ∧
     (geminiRequest "hi").generation_config.top_k = 40 ∧
     (geminiRequest "hi").generation_config.max_output_tokens = 2048 ∧
     (geminiRequest "hi").safety_settings = fixedSafetySettings) := by
  have h : isQuit "hi" = false := by decide
  have hmem : Event.call (geminiRequest "hi") ∈ (main genOk ["hi"]).1 := by
    simp [main, mainLoop, h, iterEvents]
  exact ⟨hmem, C3_fixed_parameters genOk ["hi"] (geminiRequest "hi") hmem⟩

/-- Claim C4: with `GOOGLE_API_KEY` absent from the environment, or
present but empty (both falsy in Python), each script's run is exactly
the startup `ValueError` — no loop events, no downstream call, no model
listing happen, since the scripts only proceed on `Except.ok`. -/
theorem C4_missing_key (env : Option String) (gen : GenRequest → Except String String)
    (stdin : List String) (models : List ModelDescriptor)
    (h : env = none ∨ env = some "") :
    runChatScript env gen stdin = Except.error keyError ∧
    runListModels env models = Except.error keyError := by
  rcases h with h | h <;> subst h <;> exact ⟨rfl, rfl⟩

/-- Claim C4 witness: the absent-variable case. -/
theorem C4_witness :
    ((none : Option String) = none ∨ (none : Option String) = some "") ∧
    (runChatScript none genOk ["hi"] = Except.error keyError ∧
     runListModels none [] = Except.error keyError) :=
  ⟨Or.inl rfl, C4_missing_key none genOk ["hi"] [] (Or.inl rfl)⟩

/-- Claim C5: for every non-quit input line, the iteration consists of
exactly the input prompt, one downstream call, the printed response and
one separator, after which the loop continues on the rest; in
particular the run's downstream-call count goes up by exactly one. -/
theorem C5_one_call_per_input (gen : GenRequest → Except String String)
    (line : String) (rest : List String) (h : isQuit line = false) :
    (mainLoop gen (line :: rest)).1 =
      [Event.out promptString, Event.call (geminiRequest line),
       Event.out ("\nGemini: " ++ chat_with_gemini gen line), Event.out sep] ++
      (mainLoop gen rest).1 ∧
    numCalls (mainLoop gen (line :: rest)).1 = 1 + numCalls (mainLoop gen rest).1 ∧
    (mainLoop gen (line :: rest)).2 = (mainLoop gen rest).2 := by
  have hml : (mainLoop gen (line :: rest)).1 = iterEvents gen line ++ (mainLoop gen rest).1 := by
    simp [mainLoop, h]
  refine ⟨by rw [hml]; rfl, ?_, by simp [mainLoop, h]⟩
  rw [hml]
  simp [numCalls, callsOf_append, iterEvents, callsOf]
  omega

/-- Claim C5 witness: the single iteration for the concrete input
`"hello"`. -/
theorem C5_witness :
    isQuit "hello" = false ∧
    ((mainLoop genOk ["hello"]).1 =
      [Event.out promptString, Event.call (geminiRequest "hello"),
       Event.out ("\nGemini: " ++ chat_with_gemini genOk "hello"), Event.out sep] ++
      (mainLoop genOk []).1 ∧
     numCalls (mainLoop genOk ["hello"]).1 = 1 + numCalls (mainLoop genOk []).1 ∧
     (mainLoop genOk ["hello"]).2 = (mainLoop genOk []).2) :=
  ⟨by decide, C5_one_call_per_input genOk "hello" [] (by decide)⟩

/-- Claim C6: the model lister prints, after its header and separator,
exactly one three-line block (name, display name, separator) per
descriptor, in the order of the input sequence, with no filtering,
reordering or other transformation. -/
theorem C6_one_block_per_descriptor (models : List ModelDescriptor) :
    listModelsMain models =
      "Available Models:" :: sep ::
        (models.map fun m =>
          [("Name: " ++ m.name), ("Display Name: " ++ m.display_name), sep]).flatten ∧
    (printModels models).length = 3 * models.length := by
  have hp : ∀ ms : List ModelDescriptor,
      printModels ms = (ms.map fun m =>
        [("Name: " ++ m.name), ("Display Name: " ++ m.display_name), sep]).flatten := by
    intro ms
    induction ms with
    | nil => rfl
    | cons m ms ih => simp [printModels, ih]
  have hl : ∀ ms : List ModelDescriptor, (printModels ms).length = 3 * ms.length := by
    intro ms
    induction ms with
    | nil => rfl
    | cons m ms ih =>
      simp [printModels, ih]
      omega
  exact ⟨by rw [listModelsMain, hp], hl models⟩

/-- Claim C7: no state carries across iterations. In any two runs —
with different oracles (hence different earlier responses) and different
earlier inputs — the downstream request issued for a given input line is
the same, namely `geminiRequest` of that line alone. -/
theorem C7_prompt_independent (gen₁ gen₂ : GenRequest → Except String String)
    (stdin₁ stdin₂ : List String) (i j : ℕ) (line : String)
    (h₁ : (processedLines stdin₁)[i]? = some line)
    (h₂ : (processedLines stdin₂)[j]? = some line) :
    (callsOf (mainLoop gen₁ stdin₁).1)[i]? = some (geminiRequest line) ∧
    (callsOf (mainLoop gen₂ stdin₂).1)[j]? = some (geminiRequest line) ∧
    (callsOf (mainLoop gen₁ stdin₁).1)[i]? = (callsOf (mainLoop gen₂ stdin₂).1)[j]? := by
  rw [mainLoop_calls, mainLoop_calls]
  simp [List.getElem?_map, h₁, h₂]

/-- Claim C7 witness: the input `"hi"` triggers the same request as the
second line of one run (all-succeeding oracle) and as the first line of
another (all-raising oracle). -/
theorem C7_witness :
    (processedLines ["a", "hi"])[1]? = some "hi" ∧
    (processedLines ["hi"])[0]? = some "hi" ∧
    ((callsOf (mainLoop genOk ["a", "hi"]).1)[1]? = some (geminiRequest "hi") ∧
     (callsOf (mainLoop genErr ["hi"]).1)[0]? = some (geminiRequest "hi") ∧
     (callsOf (mainLoop genOk ["a", "hi"]).1)[1]? = (callsOf (mainLoop genErr ["hi"]).1)[0]?) :=
  ⟨by decide, by decide,
   C7_prompt_independent genOk genErr ["a", "hi"] ["hi"] 1 0 "hi" (by decide) (by decide)⟩

/-- Claim C8: the empty input line is not a quit sentinel; its iteration
still issues exactly one downstream generation call, whose prompt is the
empty string. -/
theorem C8_empty_input (gen : GenRequest → Except String String) (rest : List String) :
    isQuit "" = false ∧
    (geminiRequest "").prompt = "" ∧
    (mainLoop gen ("" :: rest)).1 = iterEvents gen "" ++ (mainLoop gen rest).1 ∧
    numCalls (iterEvents gen "") = 1 := by
  have h : isQuit "" = false := by decide
  exact ⟨h, rfl, by simp [mainLoop, h], by simp [numCalls, iterEvents, callsOf]⟩

/-- Claim C9: every downstream call of any chat run uses the fixed model
identifier `'gemini-2.5-pro-preview-03-25'`, never varying with the
prompt or the iteration (the request, model field included, is rebuilt
by `geminiRequest` inside the wrapper on each call). -/
theorem C9_fixed_model (gen : GenRequest → Except String String)
    (stdin : List String) (r : GenRequest) (h : Event.call r ∈ (main gen stdin).1) :
    r.model = geminiModelName ∧ geminiModelName = "gemini-2.5-pro-preview-03-25" := by
  rcases call_is_geminiRequest gen stdin r h with ⟨line, _, hr⟩
  subst hr
  exact ⟨rfl, rfl⟩

/-- Claim C9 witness: the call issued for the concrete input
`"hello"`. -/
theorem C9_witness :
    Event.call (geminiRequest "hello") ∈ (main genOk ["hello"]).1 ∧
    ((geminiRequest "hello").model = geminiModelName ∧
     geminiModelName = "gemini-2.5-pro-preview-03-25") := by
  have h : isQuit "hello" = false := by decide
  have hmem : Event.call (geminiRequest "hello") ∈ (main genOk ["hello"]).1 := by
    simp [main, mainLoop, h, iterEvents]
  exact ⟨hmem, C9_fixed_model genOk ["hello"] (geminiRequest "hello") hmem⟩

/-- Claim C10: when stdin is exhausted before any quit line (the reading
exception case — `input()` is outside any `try`), the run ends with the
propagated read exception and the farewell is never printed. -/
theorem C10_stdin_exception (gen : GenRequest → Except String String)
    (stdin : List String) (h : ∀ line ∈ stdin, isQuit line = false) :
    (main gen stdin).2 = LoopExit.stdinError ∧
    Event.out farewell ∉ (main gen stdin).1 := by
  have hloop : ∀ st : List String, (∀ line ∈ st, isQuit line = false) →
      (mainLoop gen st).2 = LoopExit.stdinError ∧
      Event.out farewell ∉ (mainLoop gen st).1 := by
    intro st
    induction st with
    | nil =>
      intro _
      have hp : farewell ≠ promptString := by decide
      exact ⟨rfl, by simp [mainLoop, hp]⟩
    | cons line rest ih =>
      intro hst
      have hline : isQuit line = false := hst line (by simp)
      have hrest := ih fun l hl => hst l (by simp [hl])
      have hg : farewell ≠ "\nGemini: " ++ chat_with_gemini gen line :=
        fun hh => gemini_line_ne_farewell (chat_with_gemini gen line) hh.symm
      have hp : farewell ≠ promptString := by decide
      have hs : farewell ≠ sep := by decide
      constructor
      · simp [mainLoop, hline, hrest.1]
      · simp [mainLoop, hline, iterEvents, hp, hs, hg, hrest.2]
  rcases hloop stdin h with ⟨h1, h2⟩
  have hw : farewell ≠ welcome := by decide
  have hs : farewell ≠ sep := by decide
  exact ⟨by simp [main, h1], by simp [main, hw, hs, h2]⟩

/-- Claim C10 witness: the run whose stdin holds the single non-quit
line `"hi"` and then ends. -/
theorem C10_witness :
    (main genOk ["hi"]).2 = LoopExit.stdinError ∧
    Event.out farewell ∉ (main genOk ["hi"]).1 :=
  C10_stdin_exception genOk ["hi"] (by decide)

end Travel
